import Mathlib

/-!
Shallow embedding of the eclipse-uprotocol Python SDK pieces covered by the
specification: the legacy URI validator
(`org_eclipse_uprotocol/uri/validator/urivalidator.py`) and the in-memory RPC
server (`uprotocol/communication/inmemoryrpcserver.py`).

Python values are translated as follows: protobuf / datamodel value objects
become Lean structures, enumerations become inductives, Python dictionaries
become association lists with structural key equality (protobuf `__eq__` is
field-wise), raised exceptions become `Except.error`, and the transport
collaborator becomes a record of its observable outcomes.
-/

namespace Legacy

/-- Status codes of the legacy datamodel
(`org_eclipse_uprotocol.transport.datamodel.ustatus.Code`); only the members
the validator uses are needed. -/
inductive Code where
| OK
| INVALID_ARGUMENT
| NOT_FOUND
| ALREADY_EXISTS
| INTERNAL
deriving DecidableEq, Repr

/-- Python `str.strip()` on the standard whitespace characters, written over
the underlying character list so that it evaluates by kernel reduction. -/
def pyStrip (s : String) : String :=
String.mk (((s.data.dropWhile Char.isWhitespace).reverse.dropWhile Char.isWhitespace).reverse)

/-- Legacy `UStatus`: a code together with a message. -/
structure UStatus where
code : Code
message : String
deriving DecidableEq, Repr

/-- `UStatus.ok()`: the success status. -/
def UStatus.ok : UStatus := ⟨Code.OK, "ok"⟩

/-- `UStatus.failed_with_msg_and_code(msg, code)`. -/
def UStatus.failed_with_msg_and_code (msg : String) (code : Code) : UStatus :=
⟨code, msg⟩

/-- `UStatus.isFailed()`: true when the code is not `OK`. -/
def UStatus.isFailed (s : UStatus) : Bool := s.code != Code.OK

/-- Legacy `UEntity`: a software-entity name and optional major version. -/
structure UEntity where
name : String
version : Option Nat
deriving DecidableEq, Repr

/-- Modelled from the spec: `UEntity.is_empty` — the entity datamodel class is
not under `src/`; per the spec an address component is empty iff all its
fields are at default/zero. -/
def UEntity.is_empty (e : UEntity) : Bool :=
e.name == "" && e.version == none

/-- Legacy `UResource`: a resource name, an instance and a message part.  The
Python attribute `instance` is a reserved word in Lean and is rendered as
`instance_`. -/
structure UResource where
name : String
instance_ : String
message : String
deriving DecidableEq, Repr

/-- Modelled from the spec: `UResource.for_rpc_response()` — the resource
datamodel class is not under `src/`.  The spec reserves exactly one instance
value that denotes "this is a response resource"; the reserved resource is the
`rpc` family resource with instance `response`. -/
def UResource.for_rpc_response : UResource := ⟨"rpc", "response", ""⟩

/-- Modelled from the spec: `UResource.is_rpc_method()` — the resource
datamodel class is not under `src/`.  A resource identifies an RPC method when
it belongs to the `rpc` family (name `"rpc"`).  This must hold of
`for_rpc_response` as well: `validate_rpc_response` (which is under `src/`)
returns OK only when `is_rpc_method()` holds *and* the instance is the
reserved response instance, and the spec states that `validate_rpc_response`
does return OK on response URIs; the `validate_rpc_method` failure message in
`src/` ("the method to be called, or method from response") says the same. -/
def UResource.is_rpc_method (r : UResource) : Bool := r.name == "rpc"

/-- Modelled from the spec: `UResource.is_empty` — empty iff all fields are at
their defaults. -/
def UResource.is_empty (r : UResource) : Bool :=
r.name == "" && r.instance_ == "" && r.message == ""

/-- Legacy `UAuthority`, reduced to its identifying fields. -/
structure UAuthority where
device : String
domain : String
deriving DecidableEq, Repr

/-- Modelled from the spec: `UAuthority.is_empty` — empty iff all fields are
at their defaults. -/
def UAuthority.is_empty (a : UAuthority) : Bool :=
a.device == "" && a.domain == ""

/-- Legacy `UUri`: authority, software entity and resource. -/
structure UUri where
authority : UAuthority
entity : UEntity
resource : UResource
deriving DecidableEq, Repr

/-- `UUri.get_u_entity()`. -/
def UUri.get_u_entity (u : UUri) : UEntity := u.entity

/-- `UUri.get_u_resource()`. -/
def UUri.get_u_resource (u : UUri) : UResource := u.resource

/-- Modelled from the spec: `UUri.is_empty()` — an address is empty iff all
its fields are at default/zero, i.e. all three components are empty. -/
def UUri.is_empty (u : UUri) : Bool :=
u.authority.is_empty && u.entity.is_empty && u.resource.is_empty

/-- `UriValidator.validate` (src/org_eclipse_uprotocol/uri/validator/urivalidator.py,
lines 29-37). -/
def UriValidator.validate (uri : UUri) : UStatus :=
if uri.is_empty then
  UStatus.failed_with_msg_and_code "Uri is empty." Code.INVALID_ARGUMENT
else if pyStrip uri.get_u_entity.name == "" then
  UStatus.failed_with_msg_and_code "Uri is missing uSoftware Entity name." Code.INVALID_ARGUMENT
else
  UStatus.ok

/-- `UriValidator.validate_rpc_method` (urivalidator.py, lines 39-51). -/
def UriValidator.validate_rpc_method (uri : UUri) : UStatus :=
let status := UriValidator.validate uri
if status.isFailed then status
else
  let u_resource := uri.get_u_resource
  if !u_resource.is_rpc_method then
    UStatus.failed_with_msg_and_code
      "Invalid RPC method uri. Uri should be the method to be called, or method from response."
      Code.INVALID_ARGUMENT
  else
    UStatus.ok

/-- `UriValidator.validate_rpc_response` (urivalidator.py, lines 53-63). -/
def UriValidator.validate_rpc_response (uri : UUri) : UStatus :=
let status := UriValidator.validate uri
if status.isFailed then status
else
  let u_resource := uri.get_u_resource
  if !(u_resource.is_rpc_method && u_resource.instance_ == UResource.for_rpc_response.instance_) then
    UStatus.failed_with_msg_and_code "Invalid RPC response type." Code.INVALID_ARGUMENT
  else
    UStatus.ok

end Legacy

namespace V1

/-- `uprotocol.v1.ucode_pb2.UCode`, restricted to the members the server and
the claims use, together with `UNAVAILABLE` as a representative non-OK
transport status. -/
inductive UCode where
| OK
| INVALID_ARGUMENT
| NOT_FOUND
| ALREADY_EXISTS
| INTERNAL
| UNAVAILABLE
deriving DecidableEq, Repr

/-- `uprotocol.v1.ustatus_pb2.UStatus`: a protobuf message with a code and a
message string (proto default `""`). -/
structure UStatus where
code : UCode
message : String
deriving DecidableEq, Repr

/-- `uprotocol.v1.uri_pb2.UUri`: the v1 protobuf URI.  Protobuf integers are
modelled as `Nat` (the server only compares them, never computes). -/
structure UUri where
authority_name : String
ue_id : Nat
ue_version_major : Nat
resource_id : Nat
deriving DecidableEq, Repr

/-- `uprotocol.v1.uattributes_pb2.UMessageType`. -/
inductive UMessageType where
| UMESSAGE_TYPE_UNSPECIFIED
| UMESSAGE_TYPE_PUBLISH
| UMESSAGE_TYPE_REQUEST
| UMESSAGE_TYPE_RESPONSE
| UMESSAGE_TYPE_NOTIFICATION
deriving DecidableEq, Repr

/-- Message payload bytes. -/
abbrev UPayload := List Nat

/-- The attribute fields of `uprotocol.v1.umessage_pb2.UMessage` that the
server reads or the response builder writes: message id, type, source, sink,
the optional commstatus and the request-correlation id. -/
structure UAttributes where
id : Nat
type : UMessageType
source : UUri
sink : UUri
commstatus : Option UCode
reqid : Nat
deriving DecidableEq, Repr

/-- `uprotocol.v1.umessage_pb2.UMessage`: attributes plus optional payload
(`None` encodes an absent payload). -/
structure UMessage where
attributes : UAttributes
payload : Option UPayload
deriving DecidableEq, Repr

/-- A raised Python exception as the server observes it: either a
`UStatusError` carrying a `UStatus`, or any other exception reduced to its
string form `str(e)`. -/
inductive PyExn where
| ustatusError (status : UStatus)
| other (str : String)
deriving DecidableEq, Repr

/-- `uprotocol.communication.requesthandler.RequestHandler`: an application
object with a `handle_request` method that returns a payload or raises.  The
field `hid` stands for the Python object's identity, which is what `==`
compares on handler objects. -/
structure RequestHandler where
hid : Nat
handle_request : UMessage → Except PyExn (Option UPayload)

/-- Python `==` on handler objects is identity comparison. -/
instance : BEq RequestHandler := ⟨fun a b => a.hid == b.hid⟩

/-- The server's `request_handlers` dictionary: an association list from
method URI (structural protobuf equality) to the registered handler. -/
abbrev Registry := List (UUri × RequestHandler)

/-- Dictionary lookup `d.get(k)` / `d[k]`. -/
def Registry.lookup (reg : Registry) (k : UUri) : Option RequestHandler :=
match reg with
| [] => none
| (k', h) :: rest => if k' = k then some h else Registry.lookup rest k

/-- Dictionary assignment `d[k] = v`: replace in place when the key is
present, append otherwise. -/
def Registry.insert (reg : Registry) (k : UUri) (v : RequestHandler) : Registry :=
match reg with
| [] => [(k, v)]
| (k', h) :: rest => if k' = k then (k', v) :: rest else (k', h) :: Registry.insert rest k v

/-- Dictionary deletion `del d[k]`. -/
def Registry.erase (reg : Registry) (k : UUri) : Registry :=
match reg with
| [] => []
| (k', h) :: rest => if k' = k then Registry.erase rest k else (k', h) :: Registry.erase rest k

/-- Dictionary `d.pop(k, None)`: the removed value (if any) and the remaining
dictionary. -/
def Registry.pop (reg : Registry) (k : UUri) : Option RequestHandler × Registry :=
(Registry.lookup reg k, Registry.erase reg k)

/-- Modelled from the spec: `UriFactory.ANY` — the URI factory is not under
`src/`; the spec's design notes call for an explicit "any source" wildcard
sentinel in the address space. -/
def UriFactory.ANY : UUri := ⟨"*", 0xFFFF, 0xFF, 0xFFFF⟩

/-- The builder state of `UMessageBuilder`: the response attributes collected
so far. -/
structure UMessageBuilder where
attributes : UAttributes
deriving DecidableEq, Repr

/-- Modelled from the spec: `UMessageBuilder.response_for_request` — the
message builder is not under `src/`.  Per the spec it "builds a response
message correlated to the request's attributes (shared id/source-sink swap)":
the response's type is RESPONSE, its source and sink are the request's sink
and source swapped, and the request's id is both shared as the message id and
recorded as the correlation id `reqid`. -/
def UMessageBuilder.response_for_request (request_attributes : UAttributes) : UMessageBuilder :=
⟨{ id := request_attributes.id
 , type := UMessageType.UMESSAGE_TYPE_RESPONSE
 , source := request_attributes.sink
 , sink := request_attributes.source
 , commstatus := none
 , reqid := request_attributes.id }⟩

/-- Modelled from the spec: `UMessageBuilder.with_comm_status` — marks the
response under construction with the given comm-status code. -/
def UMessageBuilder.with_comm_status (b : UMessageBuilder) (code : UCode) : UMessageBuilder :=
⟨{ b.attributes with commstatus := some code }⟩

/-- Modelled from the spec: `UMessageBuilder.build(payload)` — finishes the
message with the given (possibly absent) payload. -/
def UMessageBuilder.build (b : UMessageBuilder) (payload : Option UPayload) : UMessage :=
⟨b.attributes, payload⟩

/-- The transport collaborator (`UTransport`), reduced to the outcomes the
server observes: its source address, what `register_listener` does for a
given (source filter, sink) pair — return a status or raise — and the status
`unregister_listener` returns. -/
structure UTransport where
source : UUri
register_listener : UUri → UUri → Except PyExn UStatus
unregister_listener : UUri → UUri → UStatus

/-- `UTransport.get_source()`. -/
def UTransport.get_source (t : UTransport) : UUri := t.source

/-- The observable effect of one `HandleRequestListener.on_receive` call: the
dictionary afterwards, the `handle_request` invocations made (handler paired
with the message passed to it), and the messages given to `transport.send`. -/
structure DispatchResult where
handlers : Registry
invoked : List (RequestHandler × UMessage)
sent : List UMessage

/-- `HandleRequestListener.on_receive`
(src/uprotocol/communication/inmemoryrpcserver.py, lines 36-64), as a function
of the `request_handlers` dictionary and the incoming message. -/
def HandleRequestListener.on_receive (request_handlers : Registry) (request : UMessage) : DispatchResult :=
if request.attributes.type ≠ UMessageType.UMESSAGE_TYPE_REQUEST then
  ⟨request_handlers, [], []⟩
else
  let request_attributes := request.attributes
  match Registry.pop request_handlers request_attributes.sink with
  | (none, _) => ⟨request_handlers, [], []⟩
  | (some handler, handlers') =>
    let response_builder := UMessageBuilder.response_for_request request_attributes
    match handler.handle_request request with
    | Except.ok response_payload =>
      ⟨handlers', [(handler, request)], [response_builder.build response_payload]⟩
    | Except.error e =>
      let code := match e with
        | PyExn.ustatusError s => s.code
        | PyExn.other _ => UCode.INTERNAL
      ⟨handlers', [(handler, request)], [(response_builder.with_comm_status code).build none]⟩

/-- The guard of inmemoryrpcserver.py lines 93-97 / 134-138: the method URI's
authority, entity id or entity major version differs from the transport's
source. -/
def sourceMismatch (transport : UTransport) (method_uri : UUri) : Bool :=
method_uri.authority_name != transport.get_source.authority_name
|| method_uri.ue_id != transport.get_source.ue_id
|| method_uri.ue_version_major != transport.get_source.ue_version_major

/-- `InMemoryRpcServer.register_request_handler` (inmemoryrpcserver.py, lines
77-118).  The pair is (what the call yields — a returned status or a
propagated exception — , the `request_handlers` dictionary afterwards).  The
`raise` at line 98 sits before the `try`, so it escapes as `Except.error`;
the raises inside the `try` are caught by the two `except` clauses and turned
into returned statuses.  A stored handler is never `None` (a `None` handler
is rejected before the dictionary is touched), so the line 103-106 membership
test is a plain lookup. -/
def InMemoryRpcServer.register_request_handler (transport : UTransport) (request_handlers : Registry)
  (method_uri : UUri) (handler : RequestHandler) : Except PyExn UStatus × Registry :=
if sourceMismatch transport method_uri then
  (Except.error (PyExn.ustatusError ⟨UCode.INVALID_ARGUMENT, "Method URI does not match the transport source URI"⟩),
   request_handlers)
else
  match Registry.lookup request_handlers method_uri with
  | some _ =>
    (Except.ok ⟨UCode.ALREADY_EXISTS, "Handler already registered"⟩, request_handlers)
  | none =>
    match transport.register_listener UriFactory.ANY method_uri with
    | Except.error (PyExn.ustatusError s) =>
      (Except.ok ⟨s.code, s.message⟩, request_handlers)
    | Except.error (PyExn.other str) =>
      (Except.ok ⟨UCode.INTERNAL, str⟩, request_handlers)
    | Except.ok result =>
      if result.code != UCode.OK then
        (Except.ok ⟨result.code, result.message⟩, request_handlers)
      else
        (Except.ok ⟨UCode.OK, ""⟩, Registry.insert request_handlers method_uri handler)

/-- `InMemoryRpcServer.unregister_request_handler` (inmemoryrpcserver.py,
lines 120-147).  The mismatch `raise` at line 139 is not inside any `try`, so
it escapes as `Except.error`.  Line 143 compares `d.get(method_uri) ==
handler`, which is object identity for handler objects. -/
def InMemoryRpcServer.unregister_request_handler (transport : UTransport) (request_handlers : Registry)
  (method_uri : UUri) (handler : RequestHandler) : Except PyExn UStatus × Registry :=
if sourceMismatch transport method_uri then
  (Except.error (PyExn.ustatusError ⟨UCode.INVALID_ARGUMENT, "Method URI does not match the transport source URI"⟩),
   request_handlers)
else
  if Registry.lookup request_handlers method_uri == some handler then
    (Except.ok (transport.unregister_listener UriFactory.ANY method_uri),
     Registry.erase request_handlers method_uri)
  else
    (Except.ok ⟨UCode.NOT_FOUND, ""⟩, request_handlers)

end V1

namespace V1

/-- After erasing a key, the dictionary no longer maps it. -/
theorem Registry.lookup_erase_self (reg : Registry) (k : UUri) :
    Registry.lookup (Registry.erase reg k) k = none := by
  induction reg with
  | nil => rfl
  | cons p rest ih =>
    by_cases h : p.1 = k
    · simp [Registry.erase, h, ih]
    · simp [Registry.erase, Registry.lookup, h, ih]

/-- After inserting a binding, the dictionary maps its key to its value. -/
theorem Registry.lookup_insert_self (reg : Registry) (k : UUri) (v : RequestHandler) :
    Registry.lookup (Registry.insert reg k v) k = some v := by
  induction reg with
  | nil => simp [Registry.insert, Registry.lookup]
  | cons p rest ih =>
    by_cases h : p.1 = k
    · simp [Registry.insert, h, Registry.lookup]
    · simp [Registry.insert, Registry.lookup, h, ih]

/-- Fixture: the transport's own source address. -/
def srcUri : UUri := ⟨"vehicle1", 5, 1, 0⟩

/-- Fixture: a method URI served by the entity at `srcUri`. -/
def methodUri : UUri := ⟨"vehicle1", 5, 1, 0x7500⟩

/-- Fixture: a method URI whose authority differs from `srcUri`. -/
def badUri : UUri := ⟨"vehicle2", 5, 1, 0x7500⟩

/-- Fixture: the address of a client entity. -/
def clientUri : UUri := ⟨"vehicle1", 9, 1, 0⟩

/-- Fixture: a transport whose `register_listener` and `unregister_listener`
both succeed with OK. -/
def tOK : UTransport :=
⟨srcUri, fun _ _ => Except.ok ⟨UCode.OK, ""⟩, fun _ _ => ⟨UCode.OK, ""⟩⟩

/-- Fixture: a transport whose `register_listener` returns a non-OK status. -/
def tFail : UTransport :=
⟨srcUri, fun _ _ => Except.ok ⟨UCode.UNAVAILABLE, "service down"⟩, fun _ _ => ⟨UCode.OK, ""⟩⟩

/-- Fixture: a transport whose `register_listener` raises a plain exception. -/
def tBoom : UTransport :=
⟨srcUri, fun _ _ => Except.error (PyExn.other "boom"), fun _ _ => ⟨UCode.OK, ""⟩⟩

/-- Fixture: a handler that answers every request with payload `[1, 2, 3]`. -/
def hOne : RequestHandler := ⟨1, fun _ => Except.ok (some [1, 2, 3])⟩

/-- Fixture: a second, distinct handler. -/
def hTwo : RequestHandler := ⟨2, fun _ => Except.ok none⟩

/-- Fixture: a handler that raises `UStatusError(INVALID_ARGUMENT, "bad")`. -/
def hBad : RequestHandler :=
⟨3, fun _ => Except.error (PyExn.ustatusError ⟨UCode.INVALID_ARGUMENT, "bad"⟩)⟩

/-- Fixture: a request message from `clientUri` to `methodUri`. -/
def reqMsg : UMessage :=
⟨⟨42, UMessageType.UMESSAGE_TYPE_REQUEST, clientUri, methodUri, none, 0⟩, some [9]⟩

end V1

/-- Fixture: a legacy URI naming a plain topic resource. -/
def legacyTopicUri : Legacy.UUri :=
⟨⟨"", ""⟩, ⟨"body.access", none⟩, ⟨"door", "front_left", ""⟩⟩

/-- Fixture: a legacy URI whose resource is the reserved RPC-response
resource. -/
def legacyResponseUri : Legacy.UUri :=
⟨⟨"", ""⟩, ⟨"body.access", none⟩, Legacy.UResource.for_rpc_response⟩

/-- Fixture: a legacy URI naming an RPC method resource. -/
def legacyMethodUri : Legacy.UUri :=
⟨⟨"", ""⟩, ⟨"body.access", none⟩, ⟨"rpc", "UpdateDoor", ""⟩⟩

/-- Claim C9: `validate` returns a status with code INVALID_ARGUMENT exactly
when the URI is empty or its entity name strips to the empty string, and
returns the OK status for every other URI. -/
theorem C9_validate_empty_or_blank_name (u : Legacy.UUri) :
    ((u.is_empty || Legacy.pyStrip u.get_u_entity.name == "") = true →
      (Legacy.UriValidator.validate u).code = Legacy.Code.INVALID_ARGUMENT)
    ∧ ((u.is_empty || Legacy.pyStrip u.get_u_entity.name == "") = false →
      Legacy.UriValidator.validate u = Legacy.UStatus.ok) := by
  constructor
  · intro h
    unfold Legacy.UriValidator.validate
    cases hE : u.is_empty with
    | true => simp [hE, Legacy.UStatus.failed_with_msg_and_code]
    | false =>
      rw [Bool.or_eq_true] at h
      rcases h with h | h
      · rw [hE] at h; cases h
      · simp [hE, h, Legacy.UStatus.failed_with_msg_and_code]
  · intro h
    rw [Bool.or_eq_false_iff] at h
    unfold Legacy.UriValidator.validate
    simp [h.1, h.2]

/-- Witness for C9 at a concrete non-empty URI with a non-blank entity
name. -/
theorem C9_witness :
    ((legacyTopicUri.is_empty || Legacy.pyStrip legacyTopicUri.get_u_entity.name == "") = false)
    ∧ Legacy.UriValidator.validate legacyTopicUri = Legacy.UStatus.ok :=
  ⟨by decide, (C9_validate_empty_or_blank_name legacyTopicUri).2 (by decide)⟩

/-- Claim C1: when a REQUEST message whose sink is a registered method URI is
dispatched, the registered handler is invoked exactly once with that message,
and `transport.send` is called exactly once, with the response built by
`response_for_request` from the request's attributes carrying the handler's
returned payload; the response is correlated to the request (source/sink
swapped, shared id as the correlation id, type RESPONSE). -/
theorem C1_dispatch_invokes_handler_and_sends (reg : V1.Registry) (H : V1.RequestHandler)
    (M : V1.UUri) (m : V1.UMessage) (p : Option V1.UPayload)
    (hty : m.attributes.type = V1.UMessageType.UMESSAGE_TYPE_REQUEST)
    (hsink : m.attributes.sink = M)
    (hreg : V1.Registry.lookup reg M = some H)
    (hh : H.handle_request m = Except.ok p) :
    (V1.HandleRequestListener.on_receive reg m).invoked = [(H, m)]
    ∧ (V1.HandleRequestListener.on_receive reg m).sent
        = [(V1.UMessageBuilder.response_for_request m.attributes).build p]
    ∧ ∀ r ∈ (V1.HandleRequestListener.on_receive reg m).sent,
        r.attributes.source = m.attributes.sink
        ∧ r.attributes.sink = m.attributes.source
        ∧ r.attributes.reqid = m.attributes.id
        ∧ r.attributes.type = V1.UMessageType.UMESSAGE_TYPE_RESPONSE
        ∧ r.payload = p := by
  subst hsink
  simp [V1.HandleRequestListener.on_receive, V1.Registry.pop, hty, hreg, hh,
    V1.UMessageBuilder.build, V1.UMessageBuilder.response_for_request]

/-- Witness for C1: with `hOne` registered for `methodUri`, dispatching
`reqMsg` invokes `hOne` once and sends exactly the correlated response with
payload `[1, 2, 3]`. -/
theorem C1_witness :
    V1.reqMsg.attributes.type = V1.UMessageType.UMESSAGE_TYPE_REQUEST
    ∧ V1.reqMsg.attributes.sink = V1.methodUri
    ∧ V1.Registry.lookup [(V1.methodUri, V1.hOne)] V1.methodUri = some V1.hOne
    ∧ V1.hOne.handle_request V1.reqMsg = Except.ok (some [1, 2, 3])
    ∧ (V1.HandleRequestListener.on_receive [(V1.methodUri, V1.hOne)] V1.reqMsg).invoked
        = [(V1.hOne, V1.reqMsg)]
    ∧ (V1.HandleRequestListener.on_receive [(V1.methodUri, V1.hOne)] V1.reqMsg).sent
        = [(V1.UMessageBuilder.response_for_request V1.reqMsg.attributes).build (some [1, 2, 3])] := by
  have h := C1_dispatch_invokes_handler_and_sends [(V1.methodUri, V1.hOne)] V1.hOne
    V1.methodUri V1.reqMsg (some [1, 2, 3]) rfl rfl (by simp [V1.Registry.lookup]) rfl
  exact ⟨rfl, rfl, by simp [V1.Registry.lookup], rfl, h.1, h.2.1⟩

/-- Claim C2: dispatch looks handlers up with a removing `pop`, so after one
REQUEST for method URI M is dispatched the registry no longer maps M, and a
second REQUEST with sink M invokes no handler and sends nothing. -/
theorem C2_dispatch_consumes_registration (reg : V1.Registry) (H : V1.RequestHandler)
    (M : V1.UUri) (m1 m2 : V1.UMessage)
    (hreg : V1.Registry.lookup reg M = some H)
    (hty1 : m1.attributes.type = V1.UMessageType.UMESSAGE_TYPE_REQUEST)
    (hs1 : m1.attributes.sink = M)
    (hty2 : m2.attributes.type = V1.UMessageType.UMESSAGE_TYPE_REQUEST)
    (hs2 : m2.attributes.sink = M) :
    V1.Registry.lookup (V1.HandleRequestListener.on_receive reg m1).handlers M = none
    ∧ (V1.HandleRequestListener.on_receive
        (V1.HandleRequestListener.on_receive reg m1).handlers m2).invoked = []
    ∧ (V1.HandleRequestListener.on_receive
        (V1.HandleRequestListener.on_receive reg m1).handlers m2).sent = [] := by
  subst hs1
  have hh : (V1.HandleRequestListener.on_receive reg m1).handlers
      = V1.Registry.erase reg m1.attributes.sink := by
    cases hc : H.handle_request m1 <;>
      simp [V1.HandleRequestListener.on_receive, V1.Registry.pop, hty1, hreg, hc]
  rw [hh]
  refine ⟨?_, ?_, ?_⟩ <;>
    simp [V1.HandleRequestListener.on_receive, V1.Registry.pop, hty2, hs2,
      V1.Registry.lookup_erase_self]

/-- Witness for C2: after `reqMsg` is served, a second identical request to
`methodUri` finds no handler and triggers no send. -/
theorem C2_witness :
    V1.Registry.lookup [(V1.methodUri, V1.hOne)] V1.methodUri = some V1.hOne
    ∧ V1.Registry.lookup
        (V1.HandleRequestListener.on_receive [(V1.methodUri, V1.hOne)] V1.reqMsg).handlers
        V1.methodUri = none
    ∧ (V1.HandleRequestListener.on_receive
        (V1.HandleRequestListener.on_receive [(V1.methodUri, V1.hOne)] V1.reqMsg).handlers
        V1.reqMsg).invoked = []
    ∧ (V1.HandleRequestListener.on_receive
        (V1.HandleRequestListener.on_receive [(V1.methodUri, V1.hOne)] V1.reqMsg).handlers
        V1.reqMsg).sent = [] := by
  have h := C2_dispatch_consumes_registration [(V1.methodUri, V1.hOne)] V1.hOne
    V1.methodUri V1.reqMsg V1.reqMsg (by simp [V1.Registry.lookup]) rfl rfl rfl rfl
  exact ⟨by simp [V1.Registry.lookup], h.1, h.2.1, h.2.2⟩

/-- Claim C6: when the handler raises during dispatch, the sent response
carries no payload and a comm-status that is the raised `UStatusError`'s code
when there is one, and INTERNAL for any other exception. -/
theorem C6_dispatch_handler_failure (reg : V1.Registry) (H : V1.RequestHandler)
    (M : V1.UUri) (m : V1.UMessage) (e : V1.PyExn)
    (hty : m.attributes.type = V1.UMessageType.UMESSAGE_TYPE_REQUEST)
    (hsink : m.attributes.sink = M)
    (hreg : V1.Registry.lookup reg M = some H)
    (hh : H.handle_request m = Except.error e) :
    (V1.HandleRequestListener.on_receive reg m).sent
      = [((V1.UMessageBuilder.response_for_request m.attributes).with_comm_status
          (match e with
           | V1.PyExn.ustatusError s => s.code
           | V1.PyExn.other _ => V1.UCode.INTERNAL)).build none]
    ∧ ∀ r ∈ (V1.HandleRequestListener.on_receive reg m).sent,
        r.payload = none
        ∧ r.attributes.commstatus = some (match e with
            | V1.PyExn.ustatusError s => s.code
            | V1.PyExn.other _ => V1.UCode.INTERNAL) := by
  subst hsink
  cases e <;>
    simp [V1.HandleRequestListener.on_receive, V1.Registry.pop, hty, hreg, hh,
      V1.UMessageBuilder.build, V1.UMessageBuilder.with_comm_status,
      V1.UMessageBuilder.response_for_request]

/-- Witness for C6: the handler raising `UStatusError(INVALID_ARGUMENT,
"bad")` produces a payload-free response with comm-status INVALID_ARGUMENT. -/
theorem C6_witness :
    V1.Registry.lookup [(V1.methodUri, V1.hBad)] V1.methodUri = some V1.hBad
    ∧ V1.hBad.handle_request V1.reqMsg
        = Except.error (V1.PyExn.ustatusError ⟨V1.UCode.INVALID_ARGUMENT, "bad"⟩)
    ∧ (V1.HandleRequestListener.on_receive [(V1.methodUri, V1.hBad)] V1.reqMsg).sent
        = [((V1.UMessageBuilder.response_for_request V1.reqMsg.attributes).with_comm_status
            V1.UCode.INVALID_ARGUMENT).build none] := by
  have h := C6_dispatch_handler_failure [(V1.methodUri, V1.hBad)] V1.hBad V1.methodUri
    V1.reqMsg (V1.PyExn.ustatusError ⟨V1.UCode.INVALID_ARGUMENT, "bad"⟩)
    rfl rfl (by simp [V1.Registry.lookup]) rfl
  exact ⟨by simp [V1.Registry.lookup], rfl, h.1⟩

/-- Counterexample for C3: at a method URI whose authority differs from the
transport source, both operations yield a raised `UStatusError` exception
(`Except.error`), not a returned `Status` value. -/
theorem C3_counterexample :
    V1.InMemoryRpcServer.register_request_handler V1.tOK [] V1.badUri V1.hOne
      = (Except.error (V1.PyExn.ustatusError
          ⟨V1.UCode.INVALID_ARGUMENT, "Method URI does not match the transport source URI"⟩), [])
    ∧ V1.InMemoryRpcServer.unregister_request_handler V1.tOK [] V1.badUri V1.hOne
      = (Except.error (V1.PyExn.ustatusError
          ⟨V1.UCode.INVALID_ARGUMENT, "Method URI does not match the transport source URI"⟩), []) :=
  ⟨rfl, rfl⟩

/-- Claim C3 (amended): for every method URI whose authority_name, ue_id or
ue_version_major differs from the transport source, `register_request_handler`
and `unregister_request_handler` each raise (propagate) a `UStatusError`
carrying code INVALID_ARGUMENT — the raise sits before the `try`, so the
status is not returned as a value — and the handler registry is left
unchanged. -/
theorem C3_mismatch_raises_amended (t : V1.UTransport) (reg : V1.Registry)
    (M : V1.UUri) (H : V1.RequestHandler)
    (hmis : V1.sourceMismatch t M = true) :
    V1.InMemoryRpcServer.register_request_handler t reg M H
      = (Except.error (V1.PyExn.ustatusError
          ⟨V1.UCode.INVALID_ARGUMENT, "Method URI does not match the transport source URI"⟩), reg)
    ∧ V1.InMemoryRpcServer.unregister_request_handler t reg M H
      = (Except.error (V1.PyExn.ustatusError
          ⟨V1.UCode.INVALID_ARGUMENT, "Method URI does not match the transport source URI"⟩), reg) := by
  constructor <;>
    simp [V1.InMemoryRpcServer.register_request_handler,
      V1.InMemoryRpcServer.unregister_request_handler, hmis]

/-- Witness for the amended C3 at `badUri` against `tOK`. -/
theorem C3_amended_witness :
    V1.sourceMismatch V1.tOK V1.badUri = true
    ∧ V1.InMemoryRpcServer.register_request_handler V1.tOK [(V1.methodUri, V1.hTwo)] V1.badUri V1.hOne
      = (Except.error (V1.PyExn.ustatusError
          ⟨V1.UCode.INVALID_ARGUMENT, "Method URI does not match the transport source URI"⟩),
         [(V1.methodUri, V1.hTwo)]) :=
  ⟨rfl, (C3_mismatch_raises_amended V1.tOK [(V1.methodUri, V1.hTwo)] V1.badUri V1.hOne rfl).1⟩

/-- Claim C4: with a matching method URI, no prior registration and a
transport whose `register_listener` reports OK, registering H1 returns OK;
registering H2 afterwards returns ALREADY_EXISTS, leaves the registry exactly
as it was after the first call, and H1 remains the registered handler. -/
theorem C4_second_registration_already_exists (t : V1.UTransport) (reg : V1.Registry)
    (M : V1.UUri) (H1 H2 : V1.RequestHandler) (s : V1.UStatus)
    (hmis : V1.sourceMismatch t M = false)
    (hnone : V1.Registry.lookup reg M = none)
    (hrl : t.register_listener V1.UriFactory.ANY M = Except.ok s)
    (hok : s.code = V1.UCode.OK) :
    V1.InMemoryRpcServer.register_request_handler t reg M H1
      = (Except.ok ⟨V1.UCode.OK, ""⟩, V1.Registry.insert reg M H1)
    ∧ V1.InMemoryRpcServer.register_request_handler t (V1.Registry.insert reg M H1) M H2
      = (Except.ok ⟨V1.UCode.ALREADY_EXISTS, "Handler already registered"⟩,
         V1.Registry.insert reg M H1)
    ∧ V1.Registry.lookup (V1.Registry.insert reg M H1) M = some H1 := by
  refine ⟨?_, ?_, V1.Registry.lookup_insert_self reg M H1⟩
  · simp [V1.InMemoryRpcServer.register_request_handler, hmis, hnone, hrl, hok]
  · simp [V1.InMemoryRpcServer.register_request_handler, hmis,
      V1.Registry.lookup_insert_self]

/-- Witness for C4: registering `hOne` then `hTwo` for `methodUri` on
`tOK`. -/
theorem C4_witness :
    V1.sourceMismatch V1.tOK V1.methodUri = false
    ∧ V1.Registry.lookup [] V1.methodUri = none
    ∧ V1.tOK.register_listener V1.UriFactory.ANY V1.methodUri = Except.ok ⟨V1.UCode.OK, ""⟩
    ∧ V1.InMemoryRpcServer.register_request_handler V1.tOK [] V1.methodUri V1.hOne
      = (Except.ok ⟨V1.UCode.OK, ""⟩, V1.Registry.insert [] V1.methodUri V1.hOne)
    ∧ V1.InMemoryRpcServer.register_request_handler V1.tOK
        (V1.Registry.insert [] V1.methodUri V1.hOne) V1.methodUri V1.hTwo
      = (Except.ok ⟨V1.UCode.ALREADY_EXISTS, "Handler already registered"⟩,
         V1.Registry.insert [] V1.methodUri V1.hOne)
    ∧ V1.Registry.lookup (V1.Registry.insert [] V1.methodUri V1.hOne) V1.methodUri
      = some V1.hOne := by
  have h := C4_second_registration_already_exists V1.tOK [] V1.methodUri V1.hOne V1.hTwo
    ⟨V1.UCode.OK, ""⟩ rfl rfl rfl rfl
  exact ⟨rfl, rfl, rfl, h.1, h.2.1, h.2.2⟩

/-- Claim C5: when the transport's `register_listener` returns a non-OK
status during registration, that status's code and message are returned to
the caller and the registry holds no entry for the method URI afterwards. -/
theorem C5_transport_failure_surfaced (t : V1.UTransport) (reg : V1.Registry)
    (M : V1.UUri) (H : V1.RequestHandler) (s : V1.UStatus)
    (hmis : V1.sourceMismatch t M = false)
    (hnone : V1.Registry.lookup reg M = none)
    (hrl : t.register_listener V1.UriFactory.ANY M = Except.ok s)
    (hnok : (s.code == V1.UCode.OK) = false) :
    V1.InMemoryRpcServer.register_request_handler t reg M H
      = (Except.ok ⟨s.code, s.message⟩, reg)
    ∧ V1.Registry.lookup
        (V1.InMemoryRpcServer.register_request_handler t reg M H).2 M = none := by
  have h1 : V1.InMemoryRpcServer.register_request_handler t reg M H
      = (Except.ok ⟨s.code, s.message⟩, reg) := by
    simp [V1.InMemoryRpcServer.register_request_handler, hmis, hnone, hrl, bne, hnok]
  exact ⟨h1, by rw [h1]; exact hnone⟩

/-- Witness for C5: `tFail`'s listener registration reports UNAVAILABLE
"service down", and that exact status comes back with the registry still
empty. -/
theorem C5_witness :
    V1.sourceMismatch V1.tFail V1.methodUri = false
    ∧ V1.Registry.lookup [] V1.methodUri = none
    ∧ V1.tFail.register_listener V1.UriFactory.ANY V1.methodUri
      = Except.ok ⟨V1.UCode.UNAVAILABLE, "service down"⟩
    ∧ V1.InMemoryRpcServer.register_request_handler V1.tFail [] V1.methodUri V1.hOne
      = (Except.ok ⟨V1.UCode.UNAVAILABLE, "service down"⟩, [])
    ∧ V1.Registry.lookup
        (V1.InMemoryRpcServer.register_request_handler V1.tFail [] V1.methodUri V1.hOne).2
        V1.methodUri = none := by
  have h := C5_transport_failure_surfaced V1.tFail [] V1.methodUri V1.hOne
    ⟨V1.UCode.UNAVAILABLE, "service down"⟩ rfl rfl rfl rfl
  exact ⟨rfl, rfl, rfl, h.1, h.2⟩

/-- Claim C7: with a matching method URI, `unregister_request_handler`
returns NOT_FOUND and leaves the registry unchanged when no handler or a
different handler is registered; when the registered handler equals the
argument it removes the entry and returns the transport's
`unregister_listener` status. -/
theorem C7_unregister_matching_handler (t : V1.UTransport) (reg : V1.Registry)
    (M : V1.UUri) (H : V1.RequestHandler)
    (hmis : V1.sourceMismatch t M = false) :
    ((V1.Registry.lookup reg M == some H) = false →
      V1.InMemoryRpcServer.unregister_request_handler t reg M H
        = (Except.ok ⟨V1.UCode.NOT_FOUND, ""⟩, reg))
    ∧ ((V1.Registry.lookup reg M == some H) = true →
      V1.InMemoryRpcServer.unregister_request_handler t reg M H
        = (Except.ok (t.unregister_listener V1.UriFactory.ANY M), V1.Registry.erase reg M)
      ∧ V1.Registry.lookup
          (V1.InMemoryRpcServer.unregister_request_handler t reg M H).2 M = none) := by
  constructor
  · intro h
    simp [V1.InMemoryRpcServer.unregister_request_handler, hmis, h]
  · intro h
    have h1 : V1.InMemoryRpcServer.unregister_request_handler t reg M H
        = (Except.ok (t.unregister_listener V1.UriFactory.ANY M), V1.Registry.erase reg M) := by
      simp [V1.InMemoryRpcServer.unregister_request_handler, hmis, h]
    exact ⟨h1, by rw [h1]; exact V1.Registry.lookup_erase_self reg M⟩

/-- Witness for C7: unregistering `hTwo` while `hOne` is registered returns
NOT_FOUND and keeps the registration; unregistering `hOne` removes it and
returns the transport's status. -/
theorem C7_witness :
    V1.sourceMismatch V1.tOK V1.methodUri = false
    ∧ (V1.Registry.lookup [(V1.methodUri, V1.hOne)] V1.methodUri == some V1.hTwo) = false
    ∧ V1.InMemoryRpcServer.unregister_request_handler V1.tOK [(V1.methodUri, V1.hOne)]
        V1.methodUri V1.hTwo
      = (Except.ok ⟨V1.UCode.NOT_FOUND, ""⟩, [(V1.methodUri, V1.hOne)])
    ∧ (V1.Registry.lookup [(V1.methodUri, V1.hOne)] V1.methodUri == some V1.hOne) = true
    ∧ V1.InMemoryRpcServer.unregister_request_handler V1.tOK [(V1.methodUri, V1.hOne)]
        V1.methodUri V1.hOne
      = (Except.ok (V1.tOK.unregister_listener V1.UriFactory.ANY V1.methodUri),
         V1.Registry.erase [(V1.methodUri, V1.hOne)] V1.methodUri) := by
  have hne := (C7_unregister_matching_handler V1.tOK [(V1.methodUri, V1.hOne)]
    V1.methodUri V1.hTwo rfl).1 rfl
  have heq := (C7_unregister_matching_handler V1.tOK [(V1.methodUri, V1.hOne)]
    V1.methodUri V1.hOne rfl).2 rfl
  exact ⟨rfl, rfl, hne, rfl, heq.1⟩

/-- Claim C10: with a matching method URI and no existing registration, a
non-`UStatusError` exception raised by the transport's `register_listener` is
not propagated: the call returns INTERNAL with the exception's string form,
and the registry has no entry for the method URI. -/
theorem C10_transport_exception_internal (t : V1.UTransport) (reg : V1.Registry)
    (M : V1.UUri) (H : V1.RequestHandler) (emsg : String)
    (hmis : V1.sourceMismatch t M = false)
    (hnone : V1.Registry.lookup reg M = none)
    (hrl : t.register_listener V1.UriFactory.ANY M = Except.error (V1.PyExn.other emsg)) :
    V1.InMemoryRpcServer.register_request_handler t reg M H
      = (Except.ok ⟨V1.UCode.INTERNAL, emsg⟩, reg)
    ∧ V1.Registry.lookup
        (V1.InMemoryRpcServer.register_request_handler t reg M H).2 M = none := by
  have h1 : V1.InMemoryRpcServer.register_request_handler t reg M H
      = (Except.ok ⟨V1.UCode.INTERNAL, emsg⟩, reg) := by
    simp [V1.InMemoryRpcServer.register_request_handler, hmis, hnone, hrl]
  exact ⟨h1, by rw [h1]; exact hnone⟩

/-- Witness for C10: `tBoom`'s `register_listener` raises a plain exception
"boom"; registration returns INTERNAL "boom" and stores nothing. -/
theorem C10_witness :
    V1.sourceMismatch V1.tBoom V1.methodUri = false
    ∧ V1.Registry.lookup [] V1.methodUri = none
    ∧ V1.tBoom.register_listener V1.UriFactory.ANY V1.methodUri
      = Except.error (V1.PyExn.other "boom")
    ∧ V1.InMemoryRpcServer.register_request_handler V1.tBoom [] V1.methodUri V1.hOne
      = (Except.ok ⟨V1.UCode.INTERNAL, "boom"⟩, [])
    ∧ V1.Registry.lookup
        (V1.InMemoryRpcServer.register_request_handler V1.tBoom [] V1.methodUri V1.hOne).2
        V1.methodUri = none := by
  have h := C10_transport_exception_internal V1.tBoom [] V1.methodUri V1.hOne "boom"
    rfl rfl rfl
  exact ⟨rfl, rfl, rfl, h.1, h.2⟩

/-- Counterexample for C8: `legacyResponseUri` passes `validate` and its
resource carries the reserved RPC-response instance, yet `validate_rpc_method`
returns OK rather than INVALID_ARGUMENT. -/
theorem C8_counterexample :
    Legacy.UriValidator.validate legacyResponseUri = Legacy.UStatus.ok
    ∧ legacyResponseUri.get_u_resource.instance_ = Legacy.UResource.for_rpc_response.instance_
    ∧ Legacy.UriValidator.validate_rpc_method legacyResponseUri = Legacy.UStatus.ok
    ∧ (Legacy.UriValidator.validate_rpc_method legacyResponseUri).code ≠ Legacy.Code.INVALID_ARGUMENT := by
  refine ⟨by decide, rfl, by decide, by decide⟩

/-- Claim C8 (amended): for a URI that fails `validate`, `validate_rpc_method`
propagates the failure status unchanged; for a URI that passes `validate`, it
returns OK exactly when the resource belongs to the `rpc` family
(`is_rpc_method`), which includes the reserved RPC-response resource, and
INVALID_ARGUMENT for plain topic resources. -/
theorem C8_validate_rpc_method_amended (u : Legacy.UUri) :
    ((Legacy.UriValidator.validate u).isFailed = true →
      Legacy.UriValidator.validate_rpc_method u = Legacy.UriValidator.validate u)
    ∧ ((Legacy.UriValidator.validate u).isFailed = false →
      (Legacy.UriValidator.validate_rpc_method u = Legacy.UStatus.ok ↔
        u.get_u_resource.is_rpc_method = true)
      ∧ (u.get_u_resource.is_rpc_method = false →
        Legacy.UriValidator.validate_rpc_method u
          = Legacy.UStatus.failed_with_msg_and_code
              "Invalid RPC method uri. Uri should be the method to be called, or method from response."
              Legacy.Code.INVALID_ARGUMENT
        ∧ (Legacy.UriValidator.validate_rpc_method u).code = Legacy.Code.INVALID_ARGUMENT)) := by
  constructor
  · intro h
    unfold Legacy.UriValidator.validate_rpc_method
    simp [h]
  · intro h
    cases hr : u.get_u_resource.is_rpc_method with
    | true =>
      unfold Legacy.UriValidator.validate_rpc_method
      simp [h, hr]
    | false =>
      have hf : Legacy.UriValidator.validate_rpc_method u
          = Legacy.UStatus.failed_with_msg_and_code
              "Invalid RPC method uri. Uri should be the method to be called, or method from response."
              Legacy.Code.INVALID_ARGUMENT := by
        unfold Legacy.UriValidator.validate_rpc_method
        simp [h, hr]
      refine ⟨?_, fun _ => ⟨hf, by rw [hf]; rfl⟩⟩
      rw [hf]
      simp [Legacy.UStatus.failed_with_msg_and_code, Legacy.UStatus.ok, hr]

/-- Witness for the amended C8: the response URI passes `validate`, its
resource is in the `rpc` family, and `validate_rpc_method` accepts it; the
topic fixture passes `validate`, is not in the `rpc` family, and is rejected
with code INVALID_ARGUMENT. -/
theorem C8_amended_witness :
    (Legacy.UriValidator.validate legacyResponseUri).isFailed = false
    ∧ Legacy.UriValidator.validate_rpc_method legacyResponseUri = Legacy.UStatus.ok
    ∧ (Legacy.UriValidator.validate legacyTopicUri).isFailed = false
    ∧ legacyTopicUri.get_u_resource.is_rpc_method = false
    ∧ (Legacy.UriValidator.validate_rpc_method legacyTopicUri).code
        = Legacy.Code.INVALID_ARGUMENT :=
  ⟨by decide,
   ((C8_validate_rpc_method_amended legacyResponseUri).2 (by decide)).1.mpr (by decide),
   by decide,
   by decide,
   (((C8_validate_rpc_method_amended legacyTopicUri).2 (by decide)).2 (by decide)).2⟩
